import Mathlib

/-!
Shallow embedding of the agentic call-analysis core of this repository
(`with_langchain/orchestrator.py` and `with_langchain/main.py`), together with
proofs about the claims of its specification.

Modelling conventions:
* Python strings are Lean `String`s; `str.lower()` is modelled with the ASCII
  `Char.toLower` (all keywords matched by the code are ASCII).
* The float scores of `score_agent_performance` are modelled as `Int`: every
  value reachable in the code (75, 75-5, +10, min with 100) is an integer and
  all these float operations are exact on integers; Python `int(x / 10)`
  truncates toward zero, which on these non-negative values is `Int.tdiv _ 10`.
* The sqlite table of `save_to_database` is an explicit state `List DBRow`;
  the AUTOINCREMENT id is the row position and the wall-clock timestamp column
  is omitted (no claim mentions it).
* The reasoning backend (`self.agent.ainvoke`) is an abstract parameter: `none`
  models the `self.agent is None` branch, `some (Except.error _)` a raised
  exception, `some (Except.ok s)` a completed run whose final message content
  is `s`.
* `json.loads` and `ast.literal_eval` are modelled by one executable
  recursive-descent parser with two configurations.  JSON floats, `\uXXXX`
  escapes, Python set/tuple/complex literals and non-string dict keys are not
  modelled: on such inputs the modelled parser fails where Python may succeed,
  which only widens the "parse failure" branch that the code already converts
  to an empty record.
-/

set_option maxRecDepth 8192

namespace CallAnalysis

/-! ## Characters and Python-style string helpers -/

def squote : Char := Char.ofNat 39
def dquote : Char := Char.ofNat 34
def bslash : Char := Char.ofNat 92
def lbraceC : Char := Char.ofNat 123
def rbraceC : Char := Char.ofNat 125
def lbrackC : Char := Char.ofNat 91
def rbrackC : Char := Char.ofNat 93

def strMk (cs : List Char) : String := ⟨cs⟩

/-- Contiguous-substring test, modelling the Python test `needle in hay`. -/
def isSubstr (needle : List Char) : List Char → Bool
  | [] => needle.isPrefixOf []
  | c :: t => needle.isPrefixOf (c :: t) || isSubstr needle t

/-- Test whether `hay` contains `needle` as a substring (Python `needle in hay`). -/
def containsSubstr (hay needle : String) : Bool :=
  isSubstr needle.data hay.data

/-- Python `str.lower()`, restricted to ASCII case mapping. -/
def pyLower (s : String) : String := strMk (s.data.map Char.toLower)

/-- Python `str.capitalize()`: first character uppercased, the rest lowered. -/
def pyCapitalize (s : String) : String :=
  match s.data with
  | [] => ""
  | c :: rest => strMk (Char.toUpper c :: rest.map Char.toLower)

def strContainsChar (s : String) (c : Char) : Bool := s.data.contains c

/-- Python truthiness of an optional string (`None` and `""` are falsy). -/
def truthy : Option String → Bool
  | none => false
  | some s => !(s == "")

/-! ## JSON-like values (the shape of Python dicts produced by the parsers) -/

inductive JValue where
  | jNull : JValue
  | jBool (b : Bool) : JValue
  | jInt (n : Int) : JValue
  | jStr (s : String) : JValue
  | jList (xs : List JValue) : JValue
  | jObj (fields : List (String × JValue)) : JValue

/-- Python dict lookup on the association-list representation. -/
def lookupField : List (String × JValue) → String → Option JValue
  | [], _ => none
  | (k, v) :: rest, key => if k = key then some v else lookupField rest key

def jLookup : JValue → String → Option JValue
  | JValue.jObj fields, key => lookupField fields key
  | _, _ => none

def eraseKey : List (String × JValue) → String → List (String × JValue)
  | [], _ => []
  | (k, v) :: rest, key => if k = key then rest else (k, v) :: eraseKey rest key

/-- Python dict construction order: a duplicate key keeps its first position
but takes the value of the last assignment. `rest` is the dict built from the
remaining members; `(k, v)` is the member textually before them. -/
def consMember (k : String) (v : JValue) (rest : List (String × JValue)) :
    List (String × JValue) :=
  match lookupField rest k with
  | some v2 => (k, v2) :: eraseKey rest k
  | none => (k, v) :: rest

/-! ## A fuel-based parser modelling `json.loads` and `ast.literal_eval` -/

/-- One configuration per Python parsing primitive. -/
structure ParseCfg where
  singleQuoteStrings : Bool
  trailingComma : Bool
  kwTrue : List Char
  kwFalse : List Char
  kwNull : List Char
  esc : Char → Option (List Char)
  ctrlBan : Char → Bool

def isJsonWs (c : Char) : Bool :=
  c = ' ' || c = Char.ofNat 9 || c = Char.ofNat 10 || c = Char.ofNat 13

def skipWs : List Char → List Char
  | [] => []
  | c :: rest => if isJsonWs c then skipWs rest else c :: rest

/-- JSON string escapes (`\uXXXX` is not modelled and fails). -/
def jsonEsc (c : Char) : Option (List Char) :=
  if c = dquote then some [dquote]
  else if c = bslash then some [bslash]
  else if c = '/' then some ['/']
  else if c = 'n' then some [Char.ofNat 10]
  else if c = 't' then some [Char.ofNat 9]
  else if c = 'r' then some [Char.ofNat 13]
  else if c = 'b' then some [Char.ofNat 8]
  else if c = 'f' then some [Char.ofNat 12]
  else none

/-- Python string-literal escapes; an unrecognized escape keeps the backslash
and the character, a backslash before a newline is a line continuation. -/
def pyEsc (c : Char) : Option (List Char) :=
  if c = squote then some [squote]
  else if c = dquote then some [dquote]
  else if c = bslash then some [bslash]
  else if c = 'n' then some [Char.ofNat 10]
  else if c = 't' then some [Char.ofNat 9]
  else if c = 'r' then some [Char.ofNat 13]
  else if c = 'b' then some [Char.ofNat 8]
  else if c = 'f' then some [Char.ofNat 12]
  else if c = '0' then some [Char.ofNat 0]
  else if c = Char.ofNat 10 then some []
  else some [bslash, c]

def jsonCfg : ParseCfg :=
  { singleQuoteStrings := false
    trailingComma := false
    kwTrue := "true".data
    kwFalse := "false".data
    kwNull := "null".data
    esc := jsonEsc
    ctrlBan := fun c => c.toNat < 32 }

def pyCfg : ParseCfg :=
  { singleQuoteStrings := true
    trailingComma := true
    kwTrue := "True".data
    kwFalse := "False".data
    kwNull := "None".data
    esc := pyEsc
    ctrlBan := fun c => c = Char.ofNat 10 || c = Char.ofNat 13 }

/-- String-literal body after the opening quote. The `Bool` records whether
the previous character was an unprocessed backslash. -/
def parseStrBody (q : Char) (esc : Char → Option (List Char))
    (ctrlBan : Char → Bool) : Bool → List Char → List Char →
    Option (List Char × List Char)
  | _, _, [] => none
  | true, acc, c :: rest =>
    match esc c with
    | some pushes => parseStrBody q esc ctrlBan false (pushes.foldl (fun a ch => ch :: a) acc) rest
    | none => none
  | false, acc, c :: rest =>
    if c = q then some (acc.reverse, rest)
    else if c = bslash then parseStrBody q esc ctrlBan true acc rest
    else if ctrlBan c then none
    else parseStrBody q esc ctrlBan false (c :: acc) rest

def digitSpan : List Char → (List Char × List Char)
  | [] => ([], [])
  | c :: rest =>
    if c.isDigit then
      let (ds, r) := digitSpan rest
      (c :: ds, r)
    else ([], c :: rest)

def digitsToNat : List Char → Nat → Nat
  | [], acc => acc
  | c :: rest, acc => digitsToNat rest (acc * 10 + (c.toNat - 48))

/-- Integer literal: optional minus, no leading zeros, and a following `.`,
`e` or `E` (a float, which the model does not support) makes it fail. -/
def parseIntLit (cs : List Char) : Option (Int × List Char) :=
  let (neg, cs2) :=
    match cs with
    | c :: rest => if c = '-' then (true, rest) else (false, cs)
    | [] => (false, cs)
  match digitSpan cs2 with
  | ([], _) => none
  | (d :: ds, rest) =>
    if d = '0' && ds ≠ [] then none
    else
      match rest with
      | r :: _ => if r = '.' || r = 'e' || r = 'E' then none else
          some (if neg then -(Int.ofNat (digitsToNat (d :: ds) 0)) else Int.ofNat (digitsToNat (d :: ds) 0), rest)
      | [] => some (if neg then -(Int.ofNat (digitsToNat (d :: ds) 0)) else Int.ofNat (digitsToNat (d :: ds) 0), rest)

/-- Parser modes: a value, an object body (allowing `}`), an object member
(requiring a key), an array body (allowing `]`), an array element. -/
inductive PMode where
  | value
  | members
  | membersKey
  | elems
  | elemsVal

/-- Recursive-descent parser over explicit fuel (structural recursion, so the
kernel can evaluate it). Object/array bodies return `jObj`/`jList` results. -/
def parseJ (cfg : ParseCfg) : Nat → PMode → List Char → Option (JValue × List Char)
  | 0, _, _ => none
  | Nat.succ fuel, PMode.value, cs =>
    match skipWs cs with
    | [] => none
    | c :: rest =>
      if c = lbraceC then parseJ cfg fuel PMode.members rest
      else if c = lbrackC then parseJ cfg fuel PMode.elems rest
      else if c = dquote || (cfg.singleQuoteStrings && c = squote) then
        match parseStrBody c cfg.esc cfg.ctrlBan false [] rest with
        | some (body, rest2) => some (JValue.jStr (strMk body), rest2)
        | none => none
      else if cfg.kwTrue.isPrefixOf (c :: rest) then
        some (JValue.jBool true, (c :: rest).drop cfg.kwTrue.length)
      else if cfg.kwFalse.isPrefixOf (c :: rest) then
        some (JValue.jBool false, (c :: rest).drop cfg.kwFalse.length)
      else if cfg.kwNull.isPrefixOf (c :: rest) then
        some (JValue.jNull, (c :: rest).drop cfg.kwNull.length)
      else
        match parseIntLit (c :: rest) with
        | some (n, rest2) => some (JValue.jInt n, rest2)
        | none => none
  | Nat.succ fuel, PMode.members, cs =>
    match skipWs cs with
    | [] => none
    | c :: rest =>
      if c = rbraceC then some (JValue.jObj [], rest)
      else parseJ cfg fuel PMode.membersKey (c :: rest)
  | Nat.succ fuel, PMode.membersKey, cs =>
    match skipWs cs with
    | [] => none
    | c :: rest =>
      if c = dquote || (cfg.singleQuoteStrings && c = squote) then
        match parseStrBody c cfg.esc cfg.ctrlBan false [] rest with
        | none => none
        | some (keyCs, rest2) =>
          match skipWs rest2 with
          | c2 :: rest3 =>
            if c2 = ':' then
              match parseJ cfg fuel PMode.value rest3 with
              | none => none
              | some (v, rest4) =>
                match skipWs rest4 with
                | c3 :: rest5 =>
                  if c3 = rbraceC then
                    some (JValue.jObj [(strMk keyCs, v)], rest5)
                  else if c3 = ',' then
                    match parseJ cfg fuel
                        (if cfg.trailingComma then PMode.members else PMode.membersKey) rest5 with
                    | some (JValue.jObj restFields, rest6) =>
                      some (JValue.jObj (consMember (strMk keyCs) v restFields), rest6)
                    | _ => none
                  else none
                | [] => none
            else none
          | [] => none
      else none
  | Nat.succ fuel, PMode.elems, cs =>
    match skipWs cs with
    | [] => none
    | c :: rest =>
      if c = rbrackC then some (JValue.jList [], rest)
      else parseJ cfg fuel PMode.elemsVal (c :: rest)
  | Nat.succ fuel, PMode.elemsVal, cs =>
    match parseJ cfg fuel PMode.value cs with
    | none => none
    | some (v, rest) =>
      match skipWs rest with
      | c :: rest2 =>
        if c = rbrackC then some (JValue.jList [v], rest2)
        else if c = ',' then
          match parseJ cfg fuel
              (if cfg.trailingComma then PMode.elems else PMode.elemsVal) rest2 with
          | some (JValue.jList vs, rest3) => some (JValue.jList (v :: vs), rest3)
          | _ => none
        else none
      | [] => none

/-- Whole-input parse with surrounding whitespace allowed, as both
`json.loads` and `ast.literal_eval` require. -/
def parseWhole (cfg : ParseCfg) (s : String) : Option JValue :=
  match parseJ cfg (4 * s.data.length + 8) PMode.value s.data with
  | some (v, rest) => if skipWs rest = [] then some v else none
  | none => none

/-- Model of `json.loads`. -/
def jsonLoads (s : String) : Option JValue := parseWhole jsonCfg s

/-- Model of `ast.literal_eval` (dict/list/str/int/bool/None literals). -/
def pyLiteralEval (s : String) : Option JValue := parseWhole pyCfg s

example : jsonLoads "\x7b\"a\": 1, \"b\": [true, null]\x7d" =
    some (JValue.jObj [("a", JValue.jInt 1),
      ("b", JValue.jList [JValue.jBool true, JValue.jNull])]) := rfl
example : pyLiteralEval "\x7b\x27a\x27: -2\x7d" =
    some (JValue.jObj [("a", JValue.jInt (-2))]) := rfl
example : jsonLoads "\x7b\x27a\x27: 1\x7d" = none := rfl
example : jsonLoads "\x7b\"a\": 1.5\x7d" = none := rfl

/-! ## Response Extractor
Model of the parsing block of `CallAnalysisOrchestrator.analyze_call`
(orchestrator.py lines 267-281): `re.search` with the DOTALL pattern `(\x7b.*\x7d)`
followed by an optional quote replacement, `json.loads`, and on failure
`ast.literal_eval` of the same span; all failures leave `json_data = \x7b\x7d`. -/

def findLastIdx (cs : List Char) (c : Char) : Option Nat :=
  match cs.reverse.findIdx? (fun x => x = c) with
  | some i => some (cs.length - 1 - i)
  | none => none

/-- The group captured by the greedy regex `(\x7b.*\x7d)` under DOTALL: from
the first opening brace that precedes the last closing brace of the text, up
to that last closing brace (inclusive). `none` when the regex does not match. -/
def extractSpan (s : String) : Option String :=
  match findLastIdx s.data rbraceC with
  | none => none
  | some j =>
    match (s.data.take j).findIdx? (fun x => x = lbraceC) with
    | none => none
    | some i =>
      some (strMk (lbraceC :: ((s.data.drop (i + 1)).take (j - (i + 1))) ++ [rbraceC]))

/-- The conditional quote replacement: when the span contains a single quote
and no double quote, every single quote is replaced by a double quote. -/
def quoteFix (s : String) : String :=
  if strContainsChar s squote && !strContainsChar s dquote then
    strMk (s.data.map (fun c => if c = squote then dquote else c))
  else s

/-- The whole extraction block: every failure path yields the empty record
(`json_data = \x7b\x7d`), mirroring the two nested try/except blocks. -/
def extract (finalMsgContent : String) : JValue :=
  match extractSpan finalMsgContent with
  | none => JValue.jObj []
  | some span =>
    match jsonLoads (quoteFix span) with
    | some v => v
    | none =>
      match pyLiteralEval span with
      | some v => v
      | none => JValue.jObj []

example : extract "no braces at all" = JValue.jObj [] := rfl
example : extract "x \x7d \x7b y" = JValue.jObj [] := rfl

/-! ## Result Schema Validator
Model of the pydantic `AnalysisResult` model (orchestrator.py lines 24-33):
nine required fields, `conversation_rating` an integer constrained to
`ge=1, le=10`; `sentiment` is a plain `str` field with no enum constraint.
Extra keys are ignored (the pydantic default). The pydantic lax coercions
(e.g. numeric strings to int) are not modelled: the validator accepts exactly
the records whose fields already have the declared kinds. -/

structure AnalysisResult where
  primary_intent : String
  sentiment : String
  tone : String
  conversation_rating : Int
  need_callback : Bool
  escalation_required : Bool
  fraud_risk : Bool
  follow_up_tasks : List JValue
  summary : String

def getStr (fields : List (String × JValue)) (key : String) : Option String :=
  match lookupField fields key with
  | some (JValue.jStr s) => some s
  | _ => none

def getInt (fields : List (String × JValue)) (key : String) : Option Int :=
  match lookupField fields key with
  | some (JValue.jInt n) => some n
  | _ => none

def getBool (fields : List (String × JValue)) (key : String) : Option Bool :=
  match lookupField fields key with
  | some (JValue.jBool b) => some b
  | _ => none

def getList (fields : List (String × JValue)) (key : String) : Option (List JValue) :=
  match lookupField fields key with
  | some (JValue.jList xs) => some xs
  | _ => none

/-- Models `AnalysisResult(**json_data)`: `none` stands for a raised ValidationError
(or the TypeError when `json_data` is not a mapping). -/
def validateAnalysisResult (v : JValue) : Option AnalysisResult :=
  match v with
  | JValue.jObj f =>
    (getStr f "primary_intent").bind fun pi =>
    (getStr f "sentiment").bind fun snt =>
    (getStr f "tone").bind fun tn =>
    (getInt f "conversation_rating").bind fun cr =>
    (getBool f "need_callback").bind fun nc =>
    (getBool f "escalation_required").bind fun er =>
    (getBool f "fraud_risk").bind fun fr =>
    (getList f "follow_up_tasks").bind fun fut =>
    (getStr f "summary").bind fun sm =>
    if 1 ≤ cr ∧ cr ≤ 10 then some ⟨pi, snt, tn, cr, nc, er, fr, fut, sm⟩ else none
  | _ => none

/-- Models `validated_result.model_dump()`, in field declaration order. -/
def model_dump (a : AnalysisResult) : JValue :=
  JValue.jObj [("primary_intent", JValue.jStr a.primary_intent),
    ("sentiment", JValue.jStr a.sentiment),
    ("tone", JValue.jStr a.tone),
    ("conversation_rating", JValue.jInt a.conversation_rating),
    ("need_callback", JValue.jBool a.need_callback),
    ("escalation_required", JValue.jBool a.escalation_required),
    ("fraud_risk", JValue.jBool a.fraud_risk),
    ("follow_up_tasks", JValue.jList a.follow_up_tasks),
    ("summary", JValue.jStr a.summary)]

/-! ## Capability Tools (orchestrator.py lines 37-165) -/

structure IntentResult where
  intent : String
  confidence : ℚ
  reasoning : String

structure SentimentResult where
  sentiment : String
  score : ℚ
  emotion : String

structure ScoreResult where
  overall_score : Int
  politeness : Int
  helpfulness : Int
  clarity : Int
  empathy : Int
  reasoning : String

structure Requirement where
  type : String
  priority : String
  description : String
deriving DecidableEq

structure DBRow where
  session_id : String
  transcript : String
  intent : String
  sentiment : String
  agent_score : Int
deriving DecidableEq

/-- Simulated Faster-Whisper transcription (for a present audio path). -/
def transcribe_audio (audio_file_path : String) : String :=
  if containsSubstr (pyLower audio_file_path) "demo" || audio_file_path = "sample.wav" then
    "Customer: Hello, I need help with my loan payment. I lost my job and can\x27t pay this month. Agent: I understand. Let me help you set up a payment plan. I\x27ll need you to upload some documents showing your employment status."
  else
    "Transcript of " ++ audio_file_path ++ ": Customer needs assistance with banking services."

def classify_intent (transcript : String) : IntentResult :=
  let tl := pyLower transcript
  if containsSubstr tl "loan" then
    { intent := "loan_repayment_query", confidence := 9/10, reasoning := "Keywords related to loans detected" }
  else if containsSubstr tl "fraud" || containsSubstr tl "unauthorized" then
    { intent := "fraud_report", confidence := 9/10, reasoning := "Fraud keywords detected" }
  else
    { intent := "general_inquiry", confidence := 1/2, reasoning := "Default classification" }

def detect_requirements (transcript : String) : List Requirement :=
  let tl := pyLower transcript
  (if containsSubstr tl "document" || containsSubstr tl "upload" then
    [{ type := "document_upload", priority := "MEDIUM", description := "Needs to submit verification documents" }]
  else []) ++
  ((if containsSubstr tl "call back" || containsSubstr tl "callback" then
    [{ type := "callback_request", priority := "MEDIUM", description := "Customer requested a call back" }]
  else []) ++
  (if containsSubstr tl "supervisor" || containsSubstr tl "manager" then
    [{ type := "escalation", priority := "HIGH", description := "Requested supervisor attention" }]
  else []))

def analyze_sentiment (transcript : String) : SentimentResult :=
  let tl := pyLower transcript
  if ["angry", "upset", "frustrated", "bad"].any (fun w => containsSubstr tl w) then
    { sentiment := "NEGATIVE", score := 4/5, emotion := "frustration" }
  else if ["thank", "great", "happy"].any (fun w => containsSubstr tl w) then
    { sentiment := "POSITIVE", score := 4/5, emotion := "contentment" }
  else
    { sentiment := "NEUTRAL", score := 1/2, emotion := "neutral" }

/-- Heuristic agent scoring; the float arithmetic of the source
(`75.0`, `-5.0`, `+10.0`, `min _ 100.0`) is exact on these integer values. -/
def score_agent_performance (transcript : String) (sentiment : String) : ScoreResult :=
  let score0 : Int := 75
  let score1 := if sentiment = "NEGATIVE" then score0 - 5 else score0
  let score2 :=
    if containsSubstr (pyLower transcript) "apologize" || containsSubstr (pyLower transcript) "sorry" then
      score1 + 10
    else score1
  { overall_score := min score2 100
    politeness := 80
    helpfulness := 75
    clarity := 70
    empathy := 80
    reasoning := "Rule-based scoring based on keywords and sentiment" }

/-- Plain INSERT into `call_analysis` (the AUTOINCREMENT id is the position,
the timestamp column is omitted); `requirements` is accepted but, as in the
source INSERT statement, not persisted. -/
def save_to_database (transcript intent : String) (requirements : List Requirement)
    (sentiment : String) (agent_score : Int) (session_id : String)
    (db : List DBRow) : String × List DBRow :=
  let db2 := db ++ [{ session_id := session_id
                      transcript := transcript
                      intent := intent
                      sentiment := sentiment
                      agent_score := agent_score }]
  ("SUCCESS: Call analysis saved with ID " ++ toString db2.length, db2)

/-! ## Orchestrator (orchestrator.py lines 238-335) -/

structure Envelope where
  status : String
  session_id : String
  analysis : JValue
  validation_error : Option String

/-- Models `session_id = session_id or str(uuid.uuid4())`; `freshId` stands for the
generated uuid. -/
def resolveSession (session_id : Option String) (freshId : String) : String :=
  match session_id with
  | some s => if s = "" then freshId else s
  | none => freshId

/-- Models `text = transcript or transcribe_audio.invoke(...)`. When the transcript
is falsy and no audio path is present the source crashes on
`None.lower()` inside `transcribe_audio`; that unhandled exception is
modelled as `none`. -/
def fallbackText (audio_file_path transcript : Option String) : Option String :=
  match transcript with
  | some t => if t = "" then audio_file_path.map transcribe_audio else some t
  | none => audio_file_path.map transcribe_audio

/-- The `json_data` dict assembled by `_run_fallback_analysis`. -/
def fallback_record (text : String) : JValue :=
  JValue.jObj [
    ("sentiment", JValue.jStr (pyCapitalize (analyze_sentiment text).sentiment)),
    ("tone", JValue.jStr "Professional"),
    ("conversation_rating", JValue.jInt
      (Int.tdiv (score_agent_performance text (analyze_sentiment text).sentiment).overall_score 10)),
    ("need_callback", JValue.jBool
      ((detect_requirements text).any (fun r => r.type == "callback_request"))),
    ("escalation_required", JValue.jBool
      ((detect_requirements text).any (fun r => r.type == "escalation"))),
    ("fraud_risk", JValue.jBool ((classify_intent text).intent == "fraud_report")),
    ("primary_intent", JValue.jStr (classify_intent text).intent),
    ("follow_up_tasks", JValue.jList
      ((detect_requirements text).map (fun r => JValue.jStr r.description))),
    ("summary", JValue.jStr "Rule-based analysis performed due to LLM unavailability.")]

/-- Models `CallAnalysisOrchestrator._run_fallback_analysis`, with the database
threaded explicitly; the DB confirmation string `db_res` is computed and then
dropped, exactly as in the source. -/
def run_fallback_analysis (audio_file_path transcript : Option String)
    (session_id : String) (db : List DBRow) : Option (Envelope × List DBRow) :=
  match fallbackText audio_file_path transcript with
  | none => none
  | some text =>
    let intent := classify_intent text
    let reqs := detect_requirements text
    let sent := analyze_sentiment text
    let score_details := score_agent_performance text sent.sentiment
    let saved := save_to_database text intent.intent reqs sent.sentiment
      score_details.overall_score session_id db
    some ({ status := "success"
            session_id := session_id
            analysis := fallback_record text
            validation_error := none }, saved.2)

def validationErrorMsg : String := "Pydantic validation failed"

/-- Models `CallAnalysisOrchestrator.analyze_call`. The reasoning backend is
the abstract `agent` parameter: `none` models `self.agent is None`,
`some (Except.error _)` an exception raised by `ainvoke` (any exception
routes to the fallback pipeline), `some (Except.ok s)` a completed loop whose
final message content is `s`. The internal tool side effects of the backend
happen inside `ainvoke` and are outside the modelled state. -/
def analyze_call (agent : Option (Except Unit String))
    (audio_file_path transcript session_id : Option String)
    (freshId : String) (db : List DBRow) : Option (Envelope × List DBRow) :=
  let sid := resolveSession session_id freshId
  match agent with
  | none => run_fallback_analysis audio_file_path transcript sid db
  | some (Except.error _) => run_fallback_analysis audio_file_path transcript sid db
  | some (Except.ok finalMsgContent) =>
    let json_data := extract finalMsgContent
    match validateAnalysisResult json_data with
    | some validated =>
      some ({ status := "success"
              session_id := sid
              analysis := model_dump validated
              validation_error := none }, db)
    | none =>
      some ({ status := "success"
              session_id := sid
              analysis := json_data
              validation_error := some validationErrorMsg }, db)

/-! ## Application boundary (main.py lines 24-42) -/

inductive AppError where
  | inputError
  | fileNotFound
deriving DecidableEq

/-- Models `CallAnalysisApp.analyze_call`: the audio-file existence check, then the
`ValueError` (the `InputError` of the spec) when neither input is supplied, then
the delegation to the orchestrator. `fsExists` models `Path(_).exists()`;
`user_id` is passed through unused, as in the source. -/
def app_analyze_call (fsExists : String → Bool) (agent : Option (Except Unit String))
    (audio_file : Option String) (user_id : String)
    (session_id transcript : Option String) (freshId : String)
    (db : List DBRow) : Except AppError (Option (Envelope × List DBRow)) :=
  if truthy audio_file && !(fsExists (audio_file.getD "")) then
    Except.error AppError.fileNotFound
  else if !(truthy audio_file) && !(truthy transcript) then
    Except.error AppError.inputError
  else
    Except.ok (analyze_call agent audio_file transcript session_id freshId db)

/-! ## Sanity examples -/

example : (classify_intent "I want to report fraud").intent = "fraud_report" := rfl
example : (classify_intent "my loan").intent = "loan_repayment_query" := rfl
example : (analyze_sentiment "I am happy").sentiment = "POSITIVE" := rfl
example : pyCapitalize "NEGATIVE" = "Negative" := rfl
example : (score_agent_performance "we are sorry" "NEGATIVE").overall_score = 80 := rfl

/-! ## Helper lemmas -/

theorem sentiment_cases (t : String) :
    (analyze_sentiment t).sentiment = "NEGATIVE" ∨
    (analyze_sentiment t).sentiment = "POSITIVE" ∨
    (analyze_sentiment t).sentiment = "NEUTRAL" := by
  simp only [analyze_sentiment]
  split
  · exact Or.inl rfl
  · split
    · exact Or.inr (Or.inl rfl)
    · exact Or.inr (Or.inr rfl)

theorem intent_cases (t : String) :
    (classify_intent t).intent = "loan_repayment_query" ∨
    (classify_intent t).intent = "fraud_report" ∨
    (classify_intent t).intent = "general_inquiry" := by
  simp only [classify_intent]
  split
  · exact Or.inl rfl
  · split
    · exact Or.inr (Or.inl rfl)
    · exact Or.inr (Or.inr rfl)

theorem overall_score_cases (t s : String) :
    (score_agent_performance t s).overall_score = 70 ∨
    (score_agent_performance t s).overall_score = 75 ∨
    (score_agent_performance t s).overall_score = 80 ∨
    (score_agent_performance t s).overall_score = 85 := by
  simp only [score_agent_performance]
  split <;> split <;> decide

theorem rating_cases (t s : String) :
    Int.tdiv (score_agent_performance t s).overall_score 10 = 7 ∨
    Int.tdiv (score_agent_performance t s).overall_score 10 = 8 := by
  rcases overall_score_cases t s with h | h | h | h <;> rw [h] <;> decide

theorem rating_bounds (t s : String) :
    1 ≤ Int.tdiv (score_agent_performance t s).overall_score 10 ∧
    Int.tdiv (score_agent_performance t s).overall_score 10 ≤ 10 := by
  rcases rating_cases t s with h | h <;> rw [h] <;> decide

theorem validate_fallback_fields (snt tn : String) (cr : Int) (nc er fr : Bool)
    (pi : String) (fut : List JValue) (sm : String) (h1 : 1 ≤ cr) (h2 : cr ≤ 10) :
    validateAnalysisResult (JValue.jObj [("sentiment", JValue.jStr snt),
      ("tone", JValue.jStr tn), ("conversation_rating", JValue.jInt cr),
      ("need_callback", JValue.jBool nc), ("escalation_required", JValue.jBool er),
      ("fraud_risk", JValue.jBool fr), ("primary_intent", JValue.jStr pi),
      ("follow_up_tasks", JValue.jList fut), ("summary", JValue.jStr sm)]) =
    some ⟨pi, snt, tn, cr, nc, er, fr, fut, sm⟩ := by
  simp [validateAnalysisResult, getStr, getInt, getBool, getList, lookupField, h1, h2]

theorem fallback_record_valid (text : String) :
    validateAnalysisResult (fallback_record text) =
      some ⟨(classify_intent text).intent,
        pyCapitalize (analyze_sentiment text).sentiment,
        "Professional",
        Int.tdiv (score_agent_performance text (analyze_sentiment text).sentiment).overall_score 10,
        (detect_requirements text).any (fun r => r.type == "callback_request"),
        (detect_requirements text).any (fun r => r.type == "escalation"),
        (classify_intent text).intent == "fraud_report",
        (detect_requirements text).map (fun r => JValue.jStr r.description),
        "Rule-based analysis performed due to LLM unavailability."⟩ := by
  have hb := rating_bounds text (analyze_sentiment text).sentiment
  exact validate_fallback_fields _ _ _ _ _ _ _ _ _ hb.1 hb.2

theorem run_fallback_eq (audio_path : Option String) (t : String) (ht : ¬ t = "")
    (sid : String) (db : List DBRow) :
    run_fallback_analysis audio_path (some t) sid db =
      some ({ status := "success"
              session_id := sid
              analysis := fallback_record t
              validation_error := none },
        db ++ [{ session_id := sid
                 transcript := t
                 intent := (classify_intent t).intent
                 sentiment := (analyze_sentiment t).sentiment
                 agent_score := (score_agent_performance t (analyze_sentiment t).sentiment).overall_score }]) := by
  simp [run_fallback_analysis, fallbackText, ht, save_to_database]

/-! ## Claim C1 -/

/-- Claim C1: for every valid (truthy) transcript, if the invocation of the
`ainvoke` raises, `analyze_call` still terminates with a `status = "success"`
envelope whose analysis is a schema-valid `AnalysisResult` (non-empty
`primary_intent`, sentiment in \x7bPositive, Negative, Neutral\x7d, rating in
[1,10]; the remaining typed fields — the three booleans, the task list and the
summary — are guaranteed by `validateAnalysisResult` succeeding); it never
returns status "error". -/
theorem C1_fallback_availability (audio_path : Option String) (t : String)
    (ht : ¬ t = "") (sidO : Option String) (fresh : String) (db : List DBRow) :
    ∃ env db2,
      analyze_call (some (Except.error ())) audio_path (some t) sidO fresh db =
        some (env, db2) ∧
      env.status = "success" ∧ ¬ env.status = "error" ∧
      ∃ a, validateAnalysisResult env.analysis = some a ∧
        ¬ a.primary_intent = "" ∧
        (a.sentiment = "Positive" ∨ a.sentiment = "Negative" ∨ a.sentiment = "Neutral") ∧
        1 ≤ a.conversation_rating ∧ a.conversation_rating ≤ 10 := by
  have heq := run_fallback_eq audio_path t ht (resolveSession sidO fresh) db
  refine ⟨_, _, heq, rfl, by show ¬ "success" = "error"; decide, ?_⟩
  · refine ⟨_, fallback_record_valid t, ?_, ?_, ?_⟩
    · show ¬ (classify_intent t).intent = ""
      rcases intent_cases t with h | h | h <;> rw [h] <;> decide
    · show pyCapitalize (analyze_sentiment t).sentiment = "Positive" ∨
        pyCapitalize (analyze_sentiment t).sentiment = "Negative" ∨
        pyCapitalize (analyze_sentiment t).sentiment = "Neutral"
      rcases sentiment_cases t with h | h | h <;> rw [h] <;> decide
    · exact rating_bounds t (analyze_sentiment t).sentiment

/-- Witness for C1 at a concrete transcript with the backend raising. -/
theorem C1_witness :
    ∃ env db2,
      analyze_call (some (Except.error ())) none (some "hello") none "sid-1" [] =
        some (env, db2) ∧
      env.status = "success" ∧ ¬ env.status = "error" ∧
      ∃ a, validateAnalysisResult env.analysis = some a ∧
        ¬ a.primary_intent = "" ∧
        (a.sentiment = "Positive" ∨ a.sentiment = "Negative" ∨ a.sentiment = "Neutral") ∧
        1 ≤ a.conversation_rating ∧ a.conversation_rating ≤ 10 :=
  C1_fallback_availability none "hello" (by decide) none "sid-1" []

/-! ## Claim C2 -/

/-- Claim C2: when the reasoning loop completes without raising but the
extracted record fails schema validation (including the case of a final text
with no brace-delimited object, where the extracted record is empty),
`analyze_call` returns `status = "success"` with the best-effort extracted
record as `analysis` and a populated `validation_error`; the deterministic
fallback pipeline is not run — the result is the validation-error envelope
and the database is returned unchanged (the fallback always appends a row). -/
theorem C2_validation_miss_policy (finalText : String)
    (audio_path transcript sidO : Option String) (fresh : String) (db : List DBRow)
    (hval : validateAnalysisResult (extract finalText) = none) :
    analyze_call (some (Except.ok finalText)) audio_path transcript sidO fresh db =
      some ({ status := "success"
              session_id := resolveSession sidO fresh
              analysis := extract finalText
              validation_error := some validationErrorMsg }, db) := by
  simp [analyze_call, hval]

/-- Witness for C2 on a final text with no brace-delimited object: the
extracted record is empty, validation fails, the envelope still reports
success with a populated validation error and the database is untouched. -/
theorem C2_witness :
    analyze_call (some (Except.ok "The weather is nice.")) none (some "t") none "sid-2" [] =
      some ({ status := "success"
              session_id := "sid-2"
              analysis := JValue.jObj []
              validation_error := some validationErrorMsg }, []) ∧
    extract "The weather is nice." = JValue.jObj [] :=
  ⟨C2_validation_miss_policy "The weather is nice." none (some "t") none "sid-2" [] rfl, rfl⟩

/-! ## Claim C3 -/

/-- A final message whose JSON record is well-typed for every field but whose
sentiment is "angry": the pydantic field `sentiment` is a plain string and
accepts it unchanged. -/
def c3text : String :=
  "\x7b\"primary_intent\": \"x\", \"sentiment\": \"angry\", \"tone\": \"t\", \"conversation_rating\": 5, \"need_callback\": false, \"escalation_required\": false, \"fraud_risk\": false, \"follow_up_tasks\": [], \"summary\": \"s\"\x7d"

def c3call : Option (Envelope × List DBRow) :=
  analyze_call (some (Except.ok c3text)) none none none "sid-3" []

/-- Claim C3 is false as stated: an envelope with `status = "success"` and no
`validation_error` can carry `sentiment = "angry"`, which is not in
\x7bPositive, Negative, Neutral\x7d (in any capitalization) — the pydantic model
declares `sentiment` as a plain string, with no enum check and no
normalization. -/
theorem C3_counterexample :
    (c3call.map fun p => (p.1.status, p.1.validation_error, jLookup p.1.analysis "sentiment")) =
      some ("success", none, some (JValue.jStr "angry")) ∧
    ¬ "angry" = "Positive" ∧ ¬ "angry" = "Negative" ∧ ¬ "angry" = "Neutral" ∧
    ¬ "angry" = "positive" ∧ ¬ "angry" = "negative" ∧ ¬ "angry" = "neutral" :=
  ⟨rfl, by decide, by decide, by decide, by decide, by decide, by decide⟩

theorem validate_bounds (v : JValue) (a : AnalysisResult)
    (h : validateAnalysisResult v = some a) :
    1 ≤ a.conversation_rating ∧ a.conversation_rating ≤ 10 := by
  cases v with
  | jObj f =>
    simp only [validateAnalysisResult, Option.bind_eq_some] at h
    obtain ⟨pi, hpi, snt, hsnt, tn, htn, cr, hcr, nc, hnc, er, her, fr, hfr,
      fut, hfut, sm, hsm, hif⟩ := h
    by_cases hc : 1 ≤ cr ∧ cr ≤ 10
    · rw [if_pos hc] at hif
      injection hif with h2
      subst h2
      exact hc
    · rw [if_neg hc] at hif
      exact Option.noConfusion hif
  | jNull => exact Option.noConfusion h
  | jBool b => exact Option.noConfusion h
  | jInt n => exact Option.noConfusion h
  | jStr s => exact Option.noConfusion h
  | jList xs => exact Option.noConfusion h

theorem fallback_env_facts (audio_path transcript : Option String) (sid : String)
    (db db2 : List DBRow) (env : Envelope)
    (h : run_fallback_analysis audio_path transcript sid db = some (env, db2)) :
    (∃ n, jLookup env.analysis "conversation_rating" = some (JValue.jInt n) ∧
      1 ≤ n ∧ n ≤ 10) ∧
    (∃ l, jLookup env.analysis "follow_up_tasks" = some (JValue.jList l)) ∧
    (∃ s, jLookup env.analysis "sentiment" = some (JValue.jStr s) ∧
      (s = "Positive" ∨ s = "Negative" ∨ s = "Neutral")) ∧
    env.status = "success" ∧ env.validation_error = none := by
  cases hft : fallbackText audio_path transcript with
  | none => simp [run_fallback_analysis, hft] at h
  | some text =>
    simp only [run_fallback_analysis, hft, Option.some.injEq, Prod.mk.injEq] at h
    obtain ⟨henv, hdb2⟩ := h
    subst henv
    refine ⟨⟨Int.tdiv (score_agent_performance text (analyze_sentiment text).sentiment).overall_score 10,
        ?_, (rating_bounds text _).1, (rating_bounds text _).2⟩,
      ⟨(detect_requirements text).map (fun r => JValue.jStr r.description), ?_⟩,
      ⟨pyCapitalize (analyze_sentiment text).sentiment, ?_, ?_⟩, rfl, rfl⟩
    · simp [fallback_record, jLookup, lookupField]
    · simp [fallback_record, jLookup, lookupField]
    · simp [fallback_record, jLookup, lookupField]
    · rcases sentiment_cases text with hs | hs | hs <;> rw [hs] <;> decide

/-- Claim C3, amended (the counterexample forces dropping the sentiment-enum
and normalization clause on the validated path): every `status = "success"`
envelope without `validation_error` has an integer `conversation_rating` in
[1,10] and a `follow_up_tasks` sequence; its `sentiment` is some string, but
it is constrained to \x7bPositive, Negative, Neutral\x7d only when the envelope
came from the fallback pipeline (backend missing or raising) — the validated
path passes any string through unchanged, with no case normalization. -/
theorem C3_schema_invariant_amended (agent : Option (Except Unit String))
    (audio_path transcript sidO : Option String) (fresh : String) (db db2 : List DBRow)
    (env : Envelope)
    (h : analyze_call agent audio_path transcript sidO fresh db = some (env, db2))
    (hv : env.validation_error = none) :
    (∃ n, jLookup env.analysis "conversation_rating" = some (JValue.jInt n) ∧
      1 ≤ n ∧ n ≤ 10) ∧
    (∃ l, jLookup env.analysis "follow_up_tasks" = some (JValue.jList l)) ∧
    (∃ s, jLookup env.analysis "sentiment" = some (JValue.jStr s)) ∧
    ((agent = none ∨ agent = some (Except.error ())) →
      ∃ s, jLookup env.analysis "sentiment" = some (JValue.jStr s) ∧
        (s = "Positive" ∨ s = "Negative" ∨ s = "Neutral")) := by
  cases agent with
  | none =>
    obtain ⟨h1, h2, ⟨s, hs, hset⟩, _, _⟩ :=
      fallback_env_facts audio_path transcript (resolveSession sidO fresh) db db2 env h
    exact ⟨h1, h2, ⟨s, hs⟩, fun _ => ⟨s, hs, hset⟩⟩
  | some x =>
    cases x with
    | error e =>
      obtain ⟨h1, h2, ⟨s, hs, hset⟩, _, _⟩ :=
        fallback_env_facts audio_path transcript (resolveSession sidO fresh) db db2 env h
      exact ⟨h1, h2, ⟨s, hs⟩, fun _ => ⟨s, hs, hset⟩⟩
    | ok ft =>
      cases hval : validateAnalysisResult (extract ft) with
      | none =>
        simp only [analyze_call, hval, Option.some.injEq, Prod.mk.injEq] at h
        obtain ⟨henv, hdb2⟩ := h
        subst henv
        exact absurd hv (by simp)
      | some a =>
        simp only [analyze_call, hval, Option.some.injEq, Prod.mk.injEq] at h
        obtain ⟨henv, hdb2⟩ := h
        subst henv
        obtain ⟨hlo, hhi⟩ := validate_bounds _ _ hval
        refine ⟨⟨a.conversation_rating, ?_, hlo, hhi⟩,
          ⟨a.follow_up_tasks, ?_⟩, ⟨a.sentiment, ?_⟩, ?_⟩
        · simp [model_dump, jLookup, lookupField]
        · simp [model_dump, jLookup, lookupField]
        · simp [model_dump, jLookup, lookupField]
        · intro hcase
          rcases hcase with hc | hc <;> simp at hc

/-- Witness for the amended C3 at a concrete fallback run. -/
theorem C3_witness :
    ∃ env db2,
      analyze_call none none (some "hello") none "sid-3w" [] = some (env, db2) ∧
      ((∃ n, jLookup env.analysis "conversation_rating" = some (JValue.jInt n) ∧
        1 ≤ n ∧ n ≤ 10) ∧
      (∃ l, jLookup env.analysis "follow_up_tasks" = some (JValue.jList l)) ∧
      (∃ s, jLookup env.analysis "sentiment" = some (JValue.jStr s)) ∧
      (((none : Option (Except Unit String)) = none ∨
          (none : Option (Except Unit String)) = some (Except.error ())) →
        ∃ s, jLookup env.analysis "sentiment" = some (JValue.jStr s) ∧
          (s = "Positive" ∨ s = "Negative" ∨ s = "Neutral"))) := by
  refine ⟨_, _, rfl, C3_schema_invariant_amended none none (some "hello") none "sid-3w"
    [] _ _ rfl rfl⟩

/-! ## Claim C4 -/

def c4res : Option (Envelope × List DBRow) :=
  run_fallback_analysis none (some "loan fraud") "sid-4" []

/-- Claim C4 is false as stated: `classify_intent` tests for "loan" before
"fraud", so a transcript containing both (here "loan fraud") is classified
`loan_repayment_query`, not `fraud_report`, and the fallback record has
`fraud_risk = false`. -/
theorem C4_counterexample :
    containsSubstr (pyLower "loan fraud") "fraud" = true ∧
    (classify_intent "loan fraud").intent = "loan_repayment_query" ∧
    ¬ (classify_intent "loan fraud").intent = "fraud_report" ∧
    (c4res.map fun p => jLookup p.1.analysis "fraud_risk") =
      some (some (JValue.jBool false)) :=
  ⟨by decide, by decide, by decide, rfl⟩

/-- Claim C4, amended (the counterexample forces adding the loan-priority
condition): for every transcript whose lowercased text contains "fraud" and
does not contain "loan", `classify_intent` returns intent `fraud_report` and
the fallback `AnalysisResult` has `fraud_risk = true`. -/
theorem C4_fraud_intent_amended (t : String) (audio_path : Option String)
    (sid : String) (db : List DBRow)
    (h1 : containsSubstr (pyLower t) "fraud" = true)
    (h2 : containsSubstr (pyLower t) "loan" = false) :
    (classify_intent t).intent = "fraud_report" ∧
    ((run_fallback_analysis audio_path (some t) sid db).map
      fun p => jLookup p.1.analysis "fraud_risk") = some (some (JValue.jBool true)) := by
  have ht : ¬ t = "" := by
    intro he
    subst he
    exact absurd h1 (by decide)
  have hint : (classify_intent t).intent = "fraud_report" := by
    simp [classify_intent, h1, h2]
  refine ⟨hint, ?_⟩
  rw [run_fallback_eq audio_path t ht sid db]
  simp [fallback_record, jLookup, lookupField, hint]

/-- Witness for the amended C4 at a concrete fraud transcript. -/
theorem C4_witness :
    (classify_intent "I want to report fraud").intent = "fraud_report" ∧
    ((run_fallback_analysis none (some "I want to report fraud") "sid-4w" []).map
      fun p => jLookup p.1.analysis "fraud_risk") = some (some (JValue.jBool true)) :=
  C4_fraud_intent_amended "I want to report fraud" none "sid-4w" [] (by decide) (by decide)

/-! ## Claim C5 -/

def c5once : List DBRow :=
  (save_to_database "t" "general_inquiry" [] "NEUTRAL" 75 "sess-5" []).2

def c5twice : List DBRow :=
  (save_to_database "t" "general_inquiry" [] "NEUTRAL" 75 "sess-5" c5once).2

/-- Claim C5 is false: `save_to_database` is a plain INSERT, not an
idempotent insert keyed by session — invoking it twice with identical
arguments (same `session_id`) leaves a different database state (two rows)
than invoking it once. -/
theorem C5_counterexample : ¬ c5twice = c5once := by decide

/-- Claim C5, amended: `save_to_database` appends exactly one new row on
every call; two invocations with the same arguments append two duplicate
rows, so the double-invocation state always differs from the
single-invocation state (duplicates are tolerated, deduplication by session
id is left to the storage layer). -/
theorem C5_duplicate_insert_amended (transcript intent : String)
    (reqs : List Requirement) (sentiment : String) (agent_score : Int)
    (session_id : String) (db : List DBRow) :
    (save_to_database transcript intent reqs sentiment agent_score session_id db).2 =
      db ++ [⟨session_id, transcript, intent, sentiment, agent_score⟩] ∧
    (save_to_database transcript intent reqs sentiment agent_score session_id
      ((save_to_database transcript intent reqs sentiment agent_score session_id db).2)).2 =
      db ++ [⟨session_id, transcript, intent, sentiment, agent_score⟩,
        ⟨session_id, transcript, intent, sentiment, agent_score⟩] ∧
    ¬ (save_to_database transcript intent reqs sentiment agent_score session_id
        ((save_to_database transcript intent reqs sentiment agent_score session_id db).2)).2 =
      (save_to_database transcript intent reqs sentiment agent_score session_id db).2 := by
  refine ⟨rfl, by simp [save_to_database], ?_⟩
  intro h
  have hlen := congrArg List.length h
  simp [save_to_database] at hlen

/-! ## Claim C6 -/

/-- Claim C6: for any final text whose extracted first-brace-to-last-brace
span is single-quoted with no double quotes, and whose quote-replaced form
parses as a JSON object, the Extractor recovers exactly that record (the
concrete "Here you go" / sentiment-Positive instance is the witness). -/
theorem C6_extraction_tolerance (text span : String)
    (h1 : extractSpan text = some span)
    (h2 : strContainsChar span squote = true)
    (h3 : strContainsChar span dquote = false)
    (fields : List (String × JValue))
    (h4 : jsonLoads (strMk (span.data.map fun c => if c = squote then dquote else c)) =
      some (JValue.jObj fields)) :
    extract text = JValue.jObj fields := by
  simp [extract, h1, quoteFix, h2, h3, h4]

def c6text : String :=
  "Here you go:\n\x7b\x27sentiment\x27: \x27Positive\x27, \x27primary_intent\x27: \x27x\x27\x7d"

def c6span : String :=
  "\x7b\x27sentiment\x27: \x27Positive\x27, \x27primary_intent\x27: \x27x\x27\x7d"

def c6fields : List (String × JValue) :=
  [("sentiment", JValue.jStr "Positive"), ("primary_intent", JValue.jStr "x")]

/-- Witness for C6: the single-quoted model output of the spec yields a record
whose sentiment equals "Positive". -/
theorem C6_witness :
    extract c6text = JValue.jObj c6fields ∧
    lookupField c6fields "sentiment" = some (JValue.jStr "Positive") :=
  ⟨C6_extraction_tolerance c6text c6span rfl rfl rfl c6fields rfl, rfl⟩

/-! ## Claim C7 -/

/-- Claim C7: the Extractor is total — in the model every failure mode
(no brace span, or both the strict JSON parse of the quote-fixed span and the
lenient literal parse failing) yields the empty record rather than an
exception, and on the completed-loop path `analyze_call` always returns a
success envelope in which exactly the extracted record (empty on failure) is
what reaches validation: the envelope carries either that record itself or
its validated dump. -/
theorem C7_extractor_total (text : String) :
    ((extractSpan text = none → extract text = JValue.jObj []) ∧
     (∀ span, extractSpan text = some span →
        jsonLoads (quoteFix span) = none → pyLiteralEval span = none →
        extract text = JValue.jObj [])) ∧
    ∀ (audio_path transcript sidO : Option String) (fresh : String) (db : List DBRow),
      ∃ env, analyze_call (some (Except.ok text)) audio_path transcript sidO fresh db =
          some (env, db) ∧
        env.status = "success" ∧
        (env.analysis = extract text ∨
          ∃ a, validateAnalysisResult (extract text) = some a ∧
            env.analysis = model_dump a) := by
  refine ⟨⟨fun h => by simp [extract, h], fun span hs hj hp => by simp [extract, hs, hj, hp]⟩, ?_⟩
  intro audio_path transcript sidO fresh db
  cases hval : validateAnalysisResult (extract text) with
  | none =>
    exact ⟨⟨"success", resolveSession sidO fresh, extract text, some validationErrorMsg⟩,
      by simp [analyze_call, hval], rfl, Or.inl rfl⟩
  | some a =>
    exact ⟨⟨"success", resolveSession sidO fresh, model_dump a, none⟩,
      by simp [analyze_call, hval], rfl, Or.inr ⟨a, rfl, rfl⟩⟩

/-- Witness for C7 on a text with an opening brace but no closing brace: the
regex finds no span, the record is empty, and `analyze_call` still succeeds. -/
theorem C7_witness :
    extract "no json here \x7b oops" = JValue.jObj [] ∧
    ∃ env, analyze_call (some (Except.ok "no json here \x7b oops")) none none none "sid-7" [] =
        some (env, []) ∧
      env.status = "success" ∧
      (env.analysis = extract "no json here \x7b oops" ∨
        ∃ a, validateAnalysisResult (extract "no json here \x7b oops") = some a ∧
          env.analysis = model_dump a) :=
  ⟨(C7_extractor_total "no json here \x7b oops").1.1 rfl,
    (C7_extractor_total "no json here \x7b oops").2 none none none "sid-7" []⟩

/-! ## Claim C8 -/

/-- Claim C8: a transcript whose lowercased text contains both "manager" and
"call back" makes `detect_requirements` produce both the escalation (HIGH)
and the callback_request (MEDIUM) entries — each contributed exactly once by
its keyword check, in the fixed check order — and the fallback record built
from it has `need_callback = true` and `escalation_required = true`. -/
theorem C8_scenario_a (t : String)
    (h1 : containsSubstr (pyLower t) "manager" = true)
    (h2 : containsSubstr (pyLower t) "call back" = true) :
    (⟨"callback_request", "MEDIUM", "Customer requested a call back"⟩ : Requirement) ∈
      detect_requirements t ∧
    (⟨"escalation", "HIGH", "Requested supervisor attention"⟩ : Requirement) ∈
      detect_requirements t ∧
    (detect_requirements t).count
      ⟨"callback_request", "MEDIUM", "Customer requested a call back"⟩ = 1 ∧
    (detect_requirements t).count
      ⟨"escalation", "HIGH", "Requested supervisor attention"⟩ = 1 ∧
    ∀ (audio_path : Option String) (sid : String) (db : List DBRow),
      ((run_fallback_analysis audio_path (some t) sid db).map
        fun p => (jLookup p.1.analysis "need_callback",
          jLookup p.1.analysis "escalation_required")) =
      some (some (JValue.jBool true), some (JValue.jBool true)) := by
  have ht : ¬ t = "" := by
    intro he
    subst he
    exact absurd h2 (by decide)
  cases hdoc : (containsSubstr (pyLower t) "document" || containsSubstr (pyLower t) "upload") with
  | false =>
    have hreq : detect_requirements t =
        [⟨"callback_request", "MEDIUM", "Customer requested a call back"⟩,
         ⟨"escalation", "HIGH", "Requested supervisor attention"⟩] := by
      simp [detect_requirements, h1, h2, hdoc]
    refine ⟨by rw [hreq]; decide, by rw [hreq]; decide, by rw [hreq]; decide,
      by rw [hreq]; decide, ?_⟩
    intro audio_path sid db
    rw [run_fallback_eq audio_path t ht sid db]
    simp [fallback_record, jLookup, lookupField, hreq]
  | true =>
    have hreq : detect_requirements t =
        [⟨"document_upload", "MEDIUM", "Needs to submit verification documents"⟩,
         ⟨"callback_request", "MEDIUM", "Customer requested a call back"⟩,
         ⟨"escalation", "HIGH", "Requested supervisor attention"⟩] := by
      simp [detect_requirements, h1, h2, hdoc]
    refine ⟨by rw [hreq]; decide, by rw [hreq]; decide, by rw [hreq]; decide,
      by rw [hreq]; decide, ?_⟩
    intro audio_path sid db
    rw [run_fallback_eq audio_path t ht sid db]
    simp [fallback_record, jLookup, lookupField, hreq]

/-- Witness for C8 at a concrete transcript containing both keywords. -/
theorem C8_witness :
    (⟨"callback_request", "MEDIUM", "Customer requested a call back"⟩ : Requirement) ∈
      detect_requirements "please call back, I need your manager" ∧
    (⟨"escalation", "HIGH", "Requested supervisor attention"⟩ : Requirement) ∈
      detect_requirements "please call back, I need your manager" ∧
    (detect_requirements "please call back, I need your manager").count
      ⟨"callback_request", "MEDIUM", "Customer requested a call back"⟩ = 1 ∧
    (detect_requirements "please call back, I need your manager").count
      ⟨"escalation", "HIGH", "Requested supervisor attention"⟩ = 1 ∧
    ∀ (audio_path : Option String) (sid : String) (db : List DBRow),
      ((run_fallback_analysis audio_path
          (some "please call back, I need your manager") sid db).map
        fun p => (jLookup p.1.analysis "need_callback",
          jLookup p.1.analysis "escalation_required")) =
      some (some (JValue.jBool true), some (JValue.jBool true)) :=
  C8_scenario_a "please call back, I need your manager" (by decide) (by decide)

/-! ## Claim C9 -/

/-- Claim C9: calling the application boundary with neither a (truthy)
transcript nor a (truthy) audio reference fails with the input error (the
ValueError of the source, the InputError of the spec) before anything else runs:
the result is the bare error, independent of the backend, the filesystem and
the database state — no Capability Tool is invoked and no fallback is
attempted. -/
theorem C9_input_validation (fs : String → Bool) (agent : Option (Except Unit String))
    (audio_file : Option String) (user_id : String) (sidO transcript : Option String)
    (fresh : String) (db : List DBRow)
    (ha : truthy audio_file = false) (htr : truthy transcript = false) :
    app_analyze_call fs agent audio_file user_id sidO transcript fresh db =
      Except.error AppError.inputError := by
  simp [app_analyze_call, ha, htr]

/-- Witness for C9 with both inputs absent. -/
theorem C9_witness :
    app_analyze_call (fun _ => false) none none "default_user" none none "sid-9" [] =
      Except.error AppError.inputError :=
  C9_input_validation (fun _ => false) none none "default_user" none none "sid-9" [] rfl rfl

/-! ## Claim C10 -/

/-- Claim C10 (implicit): for every transcript and sentiment string,
`score_agent_performance` returns an overall score in \x7b70, 75, 80, 85\x7d and
equals the unclamped closed form (base 75, minus 5 exactly when the sentiment
string is "NEGATIVE", plus 10 exactly when the lowercased transcript contains
"apologize" or "sorry") — so the `min _ 100` clamp never binds; consequently
the `conversation_rating` of every fallback record, the truncated integer division
of the score by 10, is 7 or 8. -/
theorem C10_score_range (t s : String) :
    ((score_agent_performance t s).overall_score = 70 ∨
     (score_agent_performance t s).overall_score = 75 ∨
     (score_agent_performance t s).overall_score = 80 ∨
     (score_agent_performance t s).overall_score = 85) ∧
    (score_agent_performance t s).overall_score =
      (if s = "NEGATIVE" then (75 : Int) - 5 else 75) +
      (if containsSubstr (pyLower t) "apologize" || containsSubstr (pyLower t) "sorry"
        then 10 else 0) ∧
    ∀ (audio_path : Option String) (transcript : String) (sid : String)
      (db db2 : List DBRow) (env : Envelope),
      run_fallback_analysis audio_path (some transcript) sid db = some (env, db2) →
      jLookup env.analysis "conversation_rating" = some (JValue.jInt 7) ∨
      jLookup env.analysis "conversation_rating" = some (JValue.jInt 8) := by
  refine ⟨overall_score_cases t s, ?_, ?_⟩
  · by_cases hn : s = "NEGATIVE" <;>
      by_cases hap : (containsSubstr (pyLower t) "apologize" ||
        containsSubstr (pyLower t) "sorry") = true <;>
      simp [score_agent_performance, hn, hap]
  · intro audio_path transcript sid db db2 env h
    cases hft : fallbackText audio_path (some transcript) with
    | none => simp [run_fallback_analysis, hft] at h
    | some text =>
      simp only [run_fallback_analysis, hft, Option.some.injEq, Prod.mk.injEq] at h
      obtain ⟨henv, _⟩ := h
      subst henv
      have hlk : jLookup (fallback_record text) "conversation_rating" =
          some (JValue.jInt (Int.tdiv
            (score_agent_performance text (analyze_sentiment text).sentiment).overall_score 10)) := by
        simp [fallback_record, jLookup, lookupField]
      dsimp only
      rw [hlk]
      rcases rating_cases text (analyze_sentiment text).sentiment with hr | hr
      · exact Or.inl (by rw [hr])
      · exact Or.inr (by rw [hr])

/-- Witness for C10: a concrete fallback run rates the conversation 7. -/
theorem C10_witness :
    jLookup (fallback_record "all good") "conversation_rating" = some (JValue.jInt 7) ∨
    jLookup (fallback_record "all good") "conversation_rating" = some (JValue.jInt 8) :=
  (C10_score_range "x" "y").2.2 none "all good" "sid-10"
    [] [⟨"sid-10", "all good", "general_inquiry", "NEUTRAL", 75⟩]
    ⟨"success", "sid-10", fallback_record "all good", none⟩ rfl

end CallAnalysis
